import Mathlib

/-!
Verification of the `cavalier` RDS lifecycle tool (`cavalier.go`, `error.go`).

The Go code is shallowly embedded: each AWS SDK / Secrets Manager call made by
an operation is resolved from a "world" record holding the response that the
external service returns for that call site, and each operation additionally
returns the ordered trace of calls it issued, so that claims about which
external mutations happen (or do not happen) can be stated.  Go `error` values
are embedded as the inductive `GoErr`: typed faults (`errors.As` targets)
become constructors, each distinct `errors.New` call site becomes
`errorsNew site msg` (Go sentinel identity), and `fmt.Errorf("...: %w", err)`
becomes `wrap msg err`.
-/

deriving instance DecidableEq for Except

namespace Cavalier

/-- `aws.ToString`: dereference a `*string`, `nil` becoming `""`. -/
def toStr : Option String → String
  | none => ""
  | some s => s

/-- `types.Tag` (Key, Value are `*string`). -/
structure Tag where
  key : Option String
  value : Option String
  deriving DecidableEq, Repr

/-- The fields of `types.DBInstance` used by the program. -/
structure DBInstance where
  dbInstanceIdentifier : Option String
  tagList : List Tag
  deriving DecidableEq, Repr

/-- The fields of `types.DBSnapshot` used by the program. -/
structure DBSnapshot where
  dbSnapshotIdentifier : Option String
  dbSnapshotArn : Option String
  tagList : List Tag
  deriving DecidableEq, Repr

/-- The zero value `types.DBSnapshot{}`. -/
def zeroDBSnapshot : DBSnapshot := ⟨none, none, []⟩

/-- Go `error` values as the program observes them.  `errorsNew site msg` is
the error built by `errors.New` at source location `site` (two `errors.New`
results are `errors.Is`-equal only if they are the same call site);
`wrap msg inner` is `fmt.Errorf(msg ++ ": %w", inner)`; the other constructors
are the typed faults the program matches with `errors.As`. -/
inductive GoErr where
  | dbInstanceNotFoundFault
  | dbSnapshotNotFoundFault
  | invalidDBInstanceStateFault
  | resourceExistsException
  | resourceNotFoundException
  | apiError (code : String)
  | errorsNew (site : String) (msg : String)
  | wrap (msg : String) (inner : GoErr)
  deriving DecidableEq, Repr

/-- `errors.Is`: walk the `%w` wrap chain looking for `target`. -/
def errorsIs (e target : GoErr) : Bool :=
  match e with
  | .wrap m inner => (GoErr.wrap m inner == target) || errorsIs inner target
  | e' => e' == target

/-- `IsDBInstanceNotFound` (cavalier.go): `errors.As` against
`*types.DBInstanceNotFoundFault`. -/
def IsDBInstanceNotFound : GoErr → Bool
  | .dbInstanceNotFoundFault => true
  | .wrap _ inner => IsDBInstanceNotFound inner
  | _ => false

/-- `IsDBSnapshotNotFound` (cavalier.go): `errors.As` against
`*types.DBSnapshotNotFoundFault`. -/
def IsDBSnapshotNotFound : GoErr → Bool
  | .dbSnapshotNotFoundFault => true
  | .wrap _ inner => IsDBSnapshotNotFound inner
  | _ => false

/-- Inline `errors.As` against `*types.InvalidDBInstanceStateFault`
(in `deleteDBInstance`). -/
def IsInvalidDBInstanceState : GoErr → Bool
  | .invalidDBInstanceStateFault => true
  | .wrap _ inner => IsInvalidDBInstanceState inner
  | _ => false

/-- Inline `errors.As` against `*smtypes.ResourceExistsException`
(in `HandleModify`). -/
def IsResourceExists : GoErr → Bool
  | .resourceExistsException => true
  | .wrap _ inner => IsResourceExists inner
  | _ => false

/-- `errors.As` against `smithy.APIError`, yielding `ErrorCode()`.  The typed
service faults implement `smithy.APIError`; plain `errors.New` errors do not.
(The exact code literals of the typed faults are irrelevant below; all that
matters is that none of them is `"ExpiredToken"`.) -/
def asAPIErrorCode : GoErr → Option String
  | .dbInstanceNotFoundFault => some "DBInstanceNotFoundFault"
  | .dbSnapshotNotFoundFault => some "DBSnapshotNotFoundFault"
  | .invalidDBInstanceStateFault => some "InvalidDBInstanceStateFault"
  | .resourceExistsException => some "ResourceExistsException"
  | .resourceNotFoundException => some "ResourceNotFoundException"
  | .apiError code => some code
  | .errorsNew _ _ => none
  | .wrap _ inner => asAPIErrorCode inner

/-- `errDBNotCreatedByCavalier` (error.go line 6). -/
def errDBNotCreatedByCavalier : GoErr :=
  .errorsNew "error.go:6" "cavalier: the specified DB instance wasn't created by the cavalier"

/-- `errNoSnapshot` (error.go line 7). -/
def errNoSnapshot : GoErr :=
  .errorsNew "error.go:7" "cavalier: no corresponding the DB snapshot"

/-- `errSkipRetrable` (cavalier.go line 615). -/
def errSkipRetrable : GoErr :=
  .errorsNew "cavalier.go:615" "cavalier: skip retryable"

/-- `strconv.ParseBool` restricted to its boolean result with the error
discarded (`ok, _ := strconv.ParseBool(v)`): `true` exactly on the six
true-spellings ParseBool accepts; `false` on the false-spellings and on any
malformed value. -/
def goParseBool (v : String) : Bool :=
  v == "1" || v == "t" || v == "T" || v == "TRUE" || v == "true" || v == "True"

/-- Loop body of `isCreatedByCavalier` (cavalier.go lines 241-254): skip tags
whose key is not `CREATED_BY_CAVALIER`; on the FIRST tag with that key,
return the (error-discarding) boolean parse of its value; `false` if no tag
has the key. -/
def isCreatedByCavalierTags : List Tag → Bool
  | [] => false
  | t :: rest =>
    if toStr t.key ≠ "CREATED_BY_CAVALIER" then isCreatedByCavalierTags rest
    else goParseBool (toStr t.value)

/-- `isCreatedByCavalier(dbi types.DBInstance) bool`. -/
def isCreatedByCavalier (dbi : DBInstance) : Bool :=
  isCreatedByCavalierTags dbi.tagList

/-- `isSnapshotCreatedByCavalier(dbi string, dbs types.DBSnapshot) bool`:
true iff some tag has key `CAVALIER_DB_INSTANCE_IDENTIFIER` and value equal
to `dbi` (the loop continues past a matching key with a non-matching value). -/
def isSnapshotCreatedByCavalier (dbi : String) (dbs : DBSnapshot) : Bool :=
  dbs.tagList.any fun t =>
    toStr t.key == "CAVALIER_DB_INSTANCE_IDENTIFIER" && toStr t.value == dbi

/-- `dbSnapshotName(dbi string) string = fmt.Sprintf("%s-cavalier", dbi)`. -/
def dbSnapshotName (dbi : String) : String := dbi ++ "-cavalier"

/-- `stringOrNil(v string) *string` (cavalier.go lines 530-535). -/
def stringOrNil (v : String) : Option String :=
  if v = "" then none else some v

/-- `masterUserPasswordSecretName(prefix, name string) string`
(`fmt.Sprintf("%s/%s", prefix, name)`). -/
def masterUserPasswordSecretName (pre nm : String) : String :=
  pre ++ "/" ++ nm

/-- Modelled from the spec (§4.1): `isUsingOwnedSnapshot(instanceTags)` —
"true iff tag `USE_SNAPSHOT_CREATED_BY_CAVALIER` exists and parses as boolean
true".  No function of this name exists in the source; the spec names it as
the predicate Terminate's snapshot cleanup is supposed to consult. -/
def isUsingOwnedSnapshot (instanceTags : List Tag) : Bool :=
  instanceTags.any fun t =>
    toStr t.key == "USE_SNAPSHOT_CREATED_BY_CAVALIER" && goParseBool (toStr t.value)

/-- `Config` (cavalier.go lines 48-64).  `secretsManagerPfx` embeds the Go
field `SecretsManagerPrefix`. -/
structure Config where
  sourceDBInstanceIdentifier : String
  snapshotARN : String
  dbInstanceClass : String
  dbSubnetGroupName : String
  dbInstanceIdentifier : String
  dbParameterGroupName : String
  optionGroupName : String
  secretsManagerPfx : String
  vpcSecurityGroupIDs : List String
  takeSnapshot : Bool
  deriving DecidableEq, Repr

/-- `rds.DeleteDBInstanceInput` as built at cavalier.go lines 106-110. -/
structure DeleteDBInstanceInput where
  dbInstanceIdentifier : String
  deleteAutomatedBackups : Bool
  skipFinalSnapshot : Bool
  deriving DecidableEq, Repr

/-- `secretsmanager.DeleteSecretInput` as built at cavalier.go lines 425-431. -/
structure DeleteSecretInput where
  secretId : String
  forceDeleteWithoutRecovery : Bool
  deriving DecidableEq, Repr

/-- `secretsmanager.CreateSecretInput` (name and secret string). -/
structure CreateSecretInput where
  name : String
  secretString : String
  deriving DecidableEq, Repr

/-- `rds.CreateDBSnapshotInput` as built at cavalier.go lines 263-273. -/
structure CreateDBSnapshotInput where
  dbInstanceIdentifier : String
  dbSnapshotIdentifier : String
  tags : List Tag
  deriving DecidableEq, Repr

/-- `rds.ModifyDBInstanceInput` as built at cavalier.go lines 507-511. -/
structure ModifyDBInstanceInput where
  dbInstanceIdentifier : String
  applyImmediately : Bool
  backupRetentionPeriod : Option Int
  masterUserPassword : Option String
  deriving DecidableEq, Repr

/-- `rds.RestoreDBInstanceFromDBSnapshotInput` as built at cavalier.go
lines 331-347. -/
structure RestoreDBInstanceFromDBSnapshotInput where
  dbSnapshotIdentifier : String
  dbSubnetGroupName : String
  vpcSecurityGroupIds : List String
  dbInstanceClass : String
  dbInstanceIdentifier : String
  dbParameterGroupName : Option String
  optionGroupName : Option String
  enableIAMDatabaseAuthentication : Bool
  publiclyAccessible : Bool
  autoMinorVersionUpgrade : Bool
  multiAZ : Bool
  tags : List Tag
  deriving DecidableEq, Repr

/-- One external call issued by an operation, with the request data the
claims are about. -/
inductive Call where
  | describeDBInstances (dbInstanceIdentifier : String)
  | deleteDBInstance (input : DeleteDBInstanceInput)
  | waitDBInstanceDeleted (dbInstanceIdentifier : String)
  | waitDBInstanceAvailable (dbInstanceIdentifier : Option String)
  | describeDBSnapshots (dbSnapshotIdentifier : String)
  | deleteDBSnapshot (dbSnapshotIdentifier : Option String)
  | createDBSnapshot (input : CreateDBSnapshotInput)
  | waitDBSnapshotAvailable (dbSnapshotIdentifier : String)
  | restoreFromSnapshot (input : RestoreDBInstanceFromDBSnapshotInput)
  | createSecret (input : CreateSecretInput)
  | getSecretValue (secretId : String)
  | deleteSecret (input : DeleteSecretInput)
  | modifyDBInstance (input : ModifyDBInstanceInput)
  deriving DecidableEq, Repr

/-- Prepend the already-issued calls to a phase result. -/
def prependCalls (cs : List Call) (p : Except GoErr Unit × List Call) :
    Except GoErr Unit × List Call :=
  (p.1, cs ++ p.2)

/-- Responses the external services give to one `HandleTerminate` invocation,
one field per call site. -/
structure TerminateWorld where
  describeDBInstances : Except GoErr (List DBInstance)
  deleteDBInstance : Except GoErr Unit
  waitDBInstanceDeleted : Except GoErr Unit
  deleteSecret : Except GoErr Unit
  describeDBSnapshotPages : List (Except GoErr (List DBSnapshot))
  deleteDBSnapshot : Except GoErr Unit
  deriving DecidableEq, Repr

/-- Method `(c *Cavalier) isCreatedByCavalier` (cavalier.go lines 204-224),
as a function of the `DescribeDBInstances` response: error → wrapped error;
a response of other than exactly one instance → the line-214 `errors.New`;
otherwise the instance paired with the ownership-tag verdict (the Go method
returns the zero `types.DBInstance` alongside `false`). -/
def isCreatedByCavalierLookup (resp : Except GoErr (List DBInstance)) :
    Except GoErr (DBInstance × Bool) :=
  match resp with
  | .error e => .error (.wrap "describing the DB instance" e)
  | .ok [dbi] =>
    if isCreatedByCavalier dbi then .ok (dbi, true) else .ok (⟨none, []⟩, false)
  | .ok _ =>
    .error (.errorsNew "cavalier.go:214" "zero DB instance or more than one DB instances returned")

/-- Method `(c *Cavalier) deleteDBInstance` (cavalier.go lines 105-141):
issue the delete (skip-final-snapshot, delete automated backups); a
`DBInstanceNotFoundFault` means already deleted (success, no wait); an
`InvalidDBInstanceStateFault` falls through to the wait like success; any
other error is wrapped and returned; then wait for instance-deleted. -/
def deleteDBInstanceM (dbInstanceIdentifier : String) (w : TerminateWorld) :
    Except GoErr Unit × List Call :=
  let delCall := Call.deleteDBInstance ⟨dbInstanceIdentifier, true, true⟩
  let waitPhase : Except GoErr Unit × List Call :=
    match w.waitDBInstanceDeleted with
    | .error e =>
      (.error (.wrap "waiting for the instance to be deleted" e),
        [delCall, Call.waitDBInstanceDeleted dbInstanceIdentifier])
    | .ok _ => (.ok (), [delCall, Call.waitDBInstanceDeleted dbInstanceIdentifier])
  match w.deleteDBInstance with
  | .error e =>
    if IsDBInstanceNotFound e then (.ok (), [delCall])
    else if IsInvalidDBInstanceState e then waitPhase
    else (.error (.wrap "deleting the DB instance" e), [delCall])
  | .ok _ => waitPhase

/-- Method `(c *rdsClient) DescribeDBSnapshotByIdentifier` (cavalier.go
lines 24-46): page through the manual snapshots named
`dbSnapshotName dbi`; a page error is wrapped and returned; the first
snapshot whose tags link it to `dbi` is returned; exhausting the pages
yields the line-45 `errors.New`. -/
def DescribeDBSnapshotByIdentifier (dbi : String)
    (pages : List (Except GoErr (List DBSnapshot))) :
    Except GoErr DBSnapshot × List Call :=
  match pages with
  | [] => (.error (.errorsNew "cavalier.go:45" "no corresponding the DB snapshot"), [])
  | page :: rest =>
    let pageCall := Call.describeDBSnapshots (dbSnapshotName dbi)
    match page with
    | .error e => (.error (.wrap "describing the DB snapshot" e), [pageCall])
    | .ok snaps =>
      match snaps.find? (fun s => isSnapshotCreatedByCavalier dbi s) with
      | some s => (.ok s, [pageCall])
      | none =>
        let (r, cs) := DescribeDBSnapshotByIdentifier dbi rest
        (r, pageCall :: cs)

/-- Method `(c *Cavalier) deleteMasterUserPasswordSecret` (cavalier.go
lines 421-438): force-delete (no recovery window) the secret named
`<prefix>/<instance-id>`; ANY error from the store is wrapped and returned. -/
def deleteMasterUserPasswordSecret (cfg : Config) (dbInstanceIdentifier : String)
    (resp : Except GoErr Unit) : Except GoErr Unit × List Call :=
  let c := Call.deleteSecret
    ⟨masterUserPasswordSecretName cfg.secretsManagerPfx dbInstanceIdentifier, true⟩
  match resp with
  | .error e => (.error (.wrap "deleting the master user password secret" e), [c])
  | .ok _ => (.ok (), [c])

/-- The snapshot branch of `HandleTerminate` (cavalier.go lines 185-199):
if the looked-up snapshot (or, after a tolerated lookup fault, the zero
snapshot) carries the link tag, delete it; a delete error is wrapped. -/
def deleteSnapshotIfLinked (dbi : String) (dbs : DBSnapshot) (w : TerminateWorld)
    (calls : List Call) : Except GoErr Unit × List Call :=
  if isSnapshotCreatedByCavalier dbi dbs then
    match w.deleteDBSnapshot with
    | .error e =>
      (.error (.wrap "removing the corresponding DB snapshot" e),
        calls ++ [Call.deleteDBSnapshot dbs.dbSnapshotIdentifier])
    | .ok _ => (.ok (), calls ++ [Call.deleteDBSnapshot dbs.dbSnapshotIdentifier])
  else (.ok (), calls)

/-- Cleanup tail of `HandleTerminate` (cavalier.go lines 170-201): delete the
master-user-password secret (any error aborts), then look up the
deterministically-named snapshot — a lookup error other than
`DBSnapshotNotFoundFault` aborts, a `DBSnapshotNotFoundFault` leaves the zero
snapshot in `dbs` — and delete the snapshot if its tags link it to the
instance. -/
def terminateCleanup (cfg : Config) (w : TerminateWorld) :
    Except GoErr Unit × List Call :=
  let (secRes, secCalls) :=
    deleteMasterUserPasswordSecret cfg cfg.dbInstanceIdentifier w.deleteSecret
  match secRes with
  | .error e => (.error e, secCalls)
  | .ok _ =>
    let (snapRes, snapCalls) :=
      DescribeDBSnapshotByIdentifier cfg.dbInstanceIdentifier w.describeDBSnapshotPages
    match snapRes with
    | .error e =>
      if ¬ IsDBSnapshotNotFound e then (.error e, secCalls ++ snapCalls)
      else prependCalls secCalls
        (deleteSnapshotIfLinked cfg.dbInstanceIdentifier zeroDBSnapshot w snapCalls)
    | .ok dbs =>
      prependCalls secCalls
        (deleteSnapshotIfLinked cfg.dbInstanceIdentifier dbs w snapCalls)

/-- `HandleTerminate` (cavalier.go lines 143-202).  Instance lookup:
a `DBInstanceNotFoundFault` marks the instance already deleted (ownership
check and instance deletion are skipped); any other lookup error aborts; a
found-but-unowned instance aborts with the line-157 `errors.New`; a found,
owned instance is deleted (with wait).  Then the cleanup tail runs. -/
def HandleTerminate (cfg : Config) (w : TerminateWorld) :
    Except GoErr Unit × List Call :=
  let describeCall := Call.describeDBInstances cfg.dbInstanceIdentifier
  match isCreatedByCavalierLookup w.describeDBInstances with
  | .error e =>
    if IsDBInstanceNotFound e then
      prependCalls [describeCall] (terminateCleanup cfg w)
    else (.error e, [describeCall])
  | .ok (_, false) =>
    (.error (.errorsNew "cavalier.go:157" "the specified DB instance wasn't created by the cavalier"),
      [describeCall])
  | .ok (_, true) =>
    match deleteDBInstanceM cfg.dbInstanceIdentifier w with
    | (.error e, cs) => (.error e, describeCall :: cs)
    | (.ok _, cs) => prependCalls (describeCall :: cs) (terminateCleanup cfg w)

/-- Responses the external services give to one `HandleModify` invocation.
`generateMasterUserPassword` stands for the random password the generator
hands back (or its failure) at cavalier.go line 481. -/
structure ModifyWorld where
  describeDBInstances : Except GoErr (List DBInstance)
  waitDBInstanceAvailable1 : Except GoErr Unit
  generateMasterUserPassword : Except GoErr String
  createSecret : Except GoErr String
  getSecretValue : Except GoErr String
  modifyDBInstance : Except GoErr Unit
  waitDBInstanceAvailable2 : Except GoErr Unit
  deriving DecidableEq, Repr

/-- Tail of `HandleModify` from the `ModifyDBInstance` call on (cavalier.go
lines 507-527): modify with apply-immediately, zero backup retention and the
master user password `mupw`; then wait for instance-available again. -/
def modifyApplyPhase (dbID : String) (dbiID : Option String) (mupw : String)
    (w : ModifyWorld) (calls : List Call) : Except GoErr Unit × List Call :=
  let mCall := Call.modifyDBInstance ⟨dbID, true, some 0, some mupw⟩
  match w.modifyDBInstance with
  | .error e => (.error (.wrap "modifying the DB instance" e), calls ++ [mCall])
  | .ok _ =>
    match w.waitDBInstanceAvailable2 with
    | .error e =>
      (.error (.wrap "waiting for the instance to be up and running" e),
        calls ++ [mCall, Call.waitDBInstanceAvailable dbiID])
    | .ok _ => (.ok (), calls ++ [mCall, Call.waitDBInstanceAvailable dbiID])

/-- `HandleModify` (cavalier.go lines 457-528): refuse unless the instance is
cavalier-owned (line-465 `errors.New` otherwise); wait for availability;
generate a password; create the secret `<prefix>/<instance-id>` — on a
`ResourceExistsException` fall back to `GetSecretValue` and use the stored
value instead, on any other creation error abort (the creation error is
wrapped twice: by `createMasterUserPasswordSecret` and by `HandleModify`) —
then apply the modification.  The Go code dereferences
`dbi.DBInstanceIdentifier`; a `nil` identifier (a crash in Go) is embedded
as a distinguished error. -/
def HandleModify (cfg : Config) (w : ModifyWorld) :
    Except GoErr Unit × List Call :=
  let describeCall := Call.describeDBInstances cfg.dbInstanceIdentifier
  match isCreatedByCavalierLookup w.describeDBInstances with
  | .error e => (.error e, [describeCall])
  | .ok (_, false) =>
    (.error (.errorsNew "cavalier.go:465" "the specified DB instance wasn't created by the cavalier"),
      [describeCall])
  | .ok (dbi, true) =>
    match dbi.dbInstanceIdentifier with
    | none => (.error (.errorsNew "go-runtime" "nil pointer dereference"), [describeCall])
    | some dbID =>
      let waitCall := Call.waitDBInstanceAvailable dbi.dbInstanceIdentifier
      match w.waitDBInstanceAvailable1 with
      | .error e =>
        (.error (.wrap "waiting for the instance to be up and running" e),
          [describeCall, waitCall])
      | .ok _ =>
        match w.generateMasterUserPassword with
        | .error e =>
          (.error (.wrap "generating the master user password" e), [describeCall, waitCall])
        | .ok mupw =>
          let secretName := masterUserPasswordSecretName cfg.secretsManagerPfx dbID
          let createCall := Call.createSecret ⟨secretName, mupw⟩
          match w.createSecret with
          | .error ce =>
            let cerr := GoErr.wrap "creating a new master user password" ce
            if ¬ IsResourceExists cerr then
              (.error (.wrap "creating the master user password" cerr),
                [describeCall, waitCall, createCall])
            else
              let getCall := Call.getSecretValue secretName
              match w.getSecretValue with
              | .error e =>
                (.error (.wrap "gettign the existing master user password"
                    (.wrap "getting the master user password" e)),
                  [describeCall, waitCall, createCall, getCall])
              | .ok existingPassword =>
                modifyApplyPhase dbID dbi.dbInstanceIdentifier existingPassword w
                  [describeCall, waitCall, createCall, getCall]
          | .ok _arn =>
            modifyApplyPhase dbID dbi.dbInstanceIdentifier mupw w
              [describeCall, waitCall, createCall]

/-- Responses for one standalone `HandleSnapshot` invocation. -/
structure SnapshotWorld where
  createDBSnapshot : Except GoErr Unit
  waitDBSnapshotAvailable : Except GoErr Unit
  deriving DecidableEq, Repr

/-- `HandleSnapshot` (cavalier.go lines 260-291): create a manual snapshot of
the source instance, named `dbSnapshotName cfg.dbInstanceIdentifier` and
carrying the link tag, then wait for snapshot-available
(`checkWhetherDBSnapshotAvailable`, whose wrap message the Go code reuses
from the instance wait). -/
def HandleSnapshot (cfg : Config) (w : SnapshotWorld) :
    Except GoErr Unit × List Call :=
  let cCall := Call.createDBSnapshot
    ⟨cfg.sourceDBInstanceIdentifier, dbSnapshotName cfg.dbInstanceIdentifier,
      [⟨some "CAVALIER_DB_INSTANCE_IDENTIFIER", some cfg.dbInstanceIdentifier⟩]⟩
  match w.createDBSnapshot with
  | .error e => (.error (.wrap "creating the DB snapshot" e), [cCall])
  | .ok _ =>
    let wCall := Call.waitDBSnapshotAvailable (dbSnapshotName cfg.dbInstanceIdentifier)
    match w.waitDBSnapshotAvailable with
    | .error e =>
      (.error (.wrap "waiting for the instance to be up and running" e), [cCall, wCall])
    | .ok _ => (.ok (), [cCall, wCall])

/-- Responses for one `HandleRestore` invocation. -/
structure RestoreWorld where
  snapshot : SnapshotWorld
  describeDBSnapshotPages : List (Except GoErr (List DBSnapshot))
  restoreDBInstanceFromDBSnapshot : Except GoErr DBInstance
  waitDBInstanceAvailable : Except GoErr Unit
  modify : ModifyWorld
  deriving DecidableEq, Repr

/-- The tag list built at cavalier.go lines 313-325: always the ownership tag
`CREATED_BY_CAVALIER=true`; additionally the usage-link tag
`USE_SNAPSHOT_CREATED_BY_CAVALIER=true` when a snapshot was taken in this
invocation. -/
def restoreTags (cfg : Config) : List Tag :=
  let tags : List Tag := [⟨some "CREATED_BY_CAVALIER", some "true"⟩]
  if cfg.takeSnapshot then
    tags ++ [⟨some "USE_SNAPSHOT_CREATED_BY_CAVALIER", some "true"⟩]
  else tags

/-- The `RestoreDBInstanceFromDBSnapshotInput` literal of cavalier.go
lines 331-347. -/
def restoreDBInstanceInput (cfg : Config) (snapshotARN : String) :
    RestoreDBInstanceFromDBSnapshotInput where
  dbSnapshotIdentifier := snapshotARN
  dbSubnetGroupName := cfg.dbSubnetGroupName
  vpcSecurityGroupIds := cfg.vpcSecurityGroupIDs
  dbInstanceClass := cfg.dbInstanceClass
  dbInstanceIdentifier := cfg.dbInstanceIdentifier
  dbParameterGroupName := stringOrNil cfg.dbParameterGroupName
  optionGroupName := stringOrNil cfg.optionGroupName
  enableIAMDatabaseAuthentication := true
  publiclyAccessible := false
  autoMinorVersionUpgrade := false
  multiAZ := false
  tags := restoreTags cfg

/-- `HandleRestore` from the restore call on (cavalier.go lines 327-368):
issue the restore request, wait for the new instance (identified by the
identifier the restore response reports) to become available, then run
`HandleModify`. -/
def restorePhase (cfg : Config) (snapshotARN : String) (w : RestoreWorld)
    (calls : List Call) : Except GoErr Unit × List Call :=
  let rCall := Call.restoreFromSnapshot (restoreDBInstanceInput cfg snapshotARN)
  match w.restoreDBInstanceFromDBSnapshot with
  | .error e => (.error (.wrap "restoring the db instance" e), calls ++ [rCall])
  | .ok dbInst =>
    let wCall := Call.waitDBInstanceAvailable dbInst.dbInstanceIdentifier
    match w.waitDBInstanceAvailable with
    | .error e =>
      (.error (.wrap "waiting for the instance to be up and running" e),
        calls ++ [rCall, wCall])
    | .ok _ =>
      let (rM, cM) := HandleModify cfg w.modify
      (rM, calls ++ [rCall, wCall] ++ cM)

/-- `HandleRestore` (cavalier.go lines 293-369): when `takeSnapshot` is set,
run `HandleSnapshot` and resolve the fresh snapshot's ARN through
`DescribeDBSnapshotByIdentifier`; otherwise use `cfg.SnapshotARN`; then the
restore phase. -/
def HandleRestore (cfg : Config) (w : RestoreWorld) :
    Except GoErr Unit × List Call :=
  if cfg.takeSnapshot then
    match HandleSnapshot cfg w.snapshot with
    | (.error e, c1) => (.error e, c1)
    | (.ok _, c1) =>
      match DescribeDBSnapshotByIdentifier cfg.dbInstanceIdentifier w.describeDBSnapshotPages with
      | (.error e, c2) => (.error e, c1 ++ c2)
      | (.ok dbs, c2) => restorePhase cfg (toStr dbs.dbSnapshotArn) w (c1 ++ c2)
  else restorePhase cfg cfg.snapshotARN w []

/-- `waiterRetryable` (cavalier.go lines 617-639), as a function of the poll
error (`nil` embedded as `none`): no decision (`errSkipRetrable`) on success,
on a non-API error, and on an API error with any code other than
`"ExpiredToken"`; on an `"ExpiredToken"` API error, not retryable and the
error itself is returned. -/
def waiterRetryable (err : Option GoErr) : Bool × Option GoErr :=
  match err with
  | none => (false, some errSkipRetrable)
  | some e =>
    match asAPIErrorCode e with
    | none => (false, some errSkipRetrable)
    | some code =>
      if code = "ExpiredToken" then (false, some e)
      else (false, some errSkipRetrable)

/-- `errors.Is` lifted to a nullable error (Go `errors.Is(nil, target)` is
false for a non-nil target). -/
def errorsIsOpt (e : Option GoErr) (target : GoErr) : Bool :=
  match e with
  | none => false
  | some e' => errorsIs e' target

/-- The retryable function `setCustomRDSRetryable` installs (cavalier.go
lines 586-613): run `waiterRetryable`; unless it signalled
`errSkipRetrable`, return its verdict together with the ORIGINAL poll error;
otherwise defer to the resource kind's default retryable `origFn`.  All three
waiter option hooks (`dbSnapshotAvailableWaiterOption`,
`dbInstanceAvailableWaiterOption`, `dbInstanceDeletedWaiterOption`) install
exactly this function over their kind's default. -/
def setCustomRDSRetryable (origFn : Option GoErr → Bool × Option GoErr)
    (err : Option GoErr) : Bool × Option GoErr :=
  let (ok, rerr) := waiterRetryable err
  if ¬ (errorsIsOpt rerr errSkipRetrable = true) then (ok, err)
  else origFn err

/-! ### Password generation

`generateMasterUserPassword` (cavalier.go lines 553-556) calls
`masterUserPasswordGen.Generate(41, 10, 10, false, false)` on a
`sethvargo/go-password` generator built with the custom symbol allow-list
`masterUserPasswordSymbols` and the library's default letter and digit sets.
The library is a dependency, not part of this repository's sources, so its
`Generate` is modelled here from its documented contract/algorithm: build
`chars = length - numDigits - numSymbols` letters, then `numDigits` digits,
then `numSymbols` symbols, each round drawing a random element of the round's
character set and inserting it at a random position of the accumulated
password, redrawing (without inserting) when repeats are disallowed and the
drawn character is already present; guard clauses reject a negative letter
count and, when repeats are disallowed, any round count exceeding its
character set.  The random source is embedded as an oracle list of
`(element-draw, position-draw)` natural pairs, each draw taken modulo the
relevant bound, so every real execution corresponds to some oracle and the
theorems below hold for all oracles. -/

/-- Library default `LowerLetters`. -/
def goLowerLetters : List Char := "abcdefghijklmnopqrstuvwxyz".toList

/-- Library default `UpperLetters`. -/
def goUpperLetters : List Char := "ABCDEFGHIJKLMNOPQRSTUVWXYZ".toList

/-- Library default `Digits`. -/
def goDigits : List Char := "0123456789".toList

/-- `masterUserPasswordSymbols` (cavalier.go line 538): the 27-symbol
allow-list (braces written with escapes). -/
def masterUserPasswordSymbols : List Char :=
  "~!#$%^&*()_+`-=\x7b\x7d|[]\\:<>?,.".toList

/-- `randomInsert(reader, s, val)`: insert `val` at a random index in
`[0, len(s)]`; the position draw is taken modulo `len(s) + 1`. -/
def randomInsert (s : List Char) (n : Nat) (c : Char) : List Char :=
  let i := n % (s.length + 1)
  s.take i ++ c :: s.drop i

/-- One `Generate` round: insert `n` elements of `charset` into `result`,
consuming one oracle pair per iteration (`randomElement` draw modulo the set
size, then the insert-position draw); when `allowRepeat` is false and the
drawn character is already present, the iteration is a redraw (`i--` /
`continue` in the library) and inserts nothing.  Runs out of oracle → `none`
(the corresponding real run would keep polling its random source); an empty
charset also gives `none` (the library would fault on its random draw). -/
def insertRandomly (charset : List Char) (allowRepeat : Bool) :
    Nat → List (Nat × Nat) → List Char → Option (List Char × List (Nat × Nat))
  | 0, oracle, result => some (result, oracle)
  | _ + 1, [], _ => none
  | n + 1, (ei, ri) :: oracle, result =>
    match charset.get? (ei % charset.length) with
    | none => none
    | some ch =>
      if !allowRepeat && result.contains ch then
        insertRandomly charset allowRepeat (n + 1) oracle result
      else
        insertRandomly charset allowRepeat n oracle (randomInsert result ri ch)

/-- The character-set fields of `password.Generator`. -/
structure PasswordGenerator where
  lowerLetters : List Char
  upperLetters : List Char
  digits : List Char
  symbols : List Char
  deriving DecidableEq, Repr

/-- The process-wide generator built in `init()` (cavalier.go lines 542-551):
library defaults except for the symbol allow-list. -/
def masterUserPasswordGen : PasswordGenerator where
  lowerLetters := goLowerLetters
  upperLetters := goUpperLetters
  digits := goDigits
  symbols := masterUserPasswordSymbols

/-- `(g *Generator) Generate(length, numDigits, numSymbols, noUpper,
allowRepeat)`: guard clauses, then the three insertion rounds (letters,
digits, symbols). -/
def PasswordGenerator.generate (g : PasswordGenerator)
    (length numDigits numSymbols : Nat) (noUpper allowRepeat : Bool)
    (oracle : List (Nat × Nat)) : Option (List Char) :=
  let letters := if noUpper then g.lowerLetters else g.lowerLetters ++ g.upperLetters
  if length < numDigits + numSymbols then none
  else
    let chars := length - numDigits - numSymbols
    if !allowRepeat && letters.length < chars then none
    else if !allowRepeat && g.digits.length < numDigits then none
    else if !allowRepeat && g.symbols.length < numSymbols then none
    else
      match insertRandomly letters allowRepeat chars oracle [] with
      | none => none
      | some (r1, o1) =>
        match insertRandomly g.digits allowRepeat numDigits o1 r1 with
        | none => none
        | some (r2, o2) =>
          match insertRandomly g.symbols allowRepeat numSymbols o2 r2 with
          | none => none
          | some (r3, _) => some r3

/-- `generateMasterUserPassword` (cavalier.go lines 553-556). -/
def generateMasterUserPassword (oracle : List (Nat × Nat)) : Option (List Char) :=
  masterUserPasswordGen.generate 41 10 10 false false oracle

/-- How many characters of `l` lie in the character set `cs`. -/
def countIn (l cs : List Char) : Nat :=
  l.countP fun c => cs.contains c

/-! ### C8 — the ownership predicate -/

/-- C8 counterexample: the claim reads `isCreatedByCavalier` as "true iff
SOME tag named `CREATED_BY_CAVALIER` exists whose value parses as boolean
true".  On a tag list carrying that key twice — first with a malformed value,
then with `"true"` — such a tag exists, yet the function returns `false`,
because the Go loop returns the parse of the FIRST tag with the key. -/
theorem isCreatedByCavalier_duplicate_tag_counterexample :
    (∃ t, t ∈ (DBInstance.mk none
        [⟨some "CREATED_BY_CAVALIER", some "bogus"⟩,
          ⟨some "CREATED_BY_CAVALIER", some "true"⟩]).tagList ∧
        toStr t.key = "CREATED_BY_CAVALIER" ∧ goParseBool (toStr t.value) = true) ∧
      isCreatedByCavalier ⟨none,
        [⟨some "CREATED_BY_CAVALIER", some "bogus"⟩,
          ⟨some "CREATED_BY_CAVALIER", some "true"⟩]⟩ = false := by
  constructor
  · exact ⟨⟨some "CREATED_BY_CAVALIER", some "true"⟩, by decide, by decide, by decide⟩
  · decide

/-- C8 (amended): for every tag list, `isCreatedByCavalier` equals the
boolean parse of the value of the FIRST tag named `CREATED_BY_CAVALIER`
(`false` when no tag has the key, or when that first value is a false or
malformed boolean); it is a total boolean function, so it never errors.  For
tag lists in which the key occurs at most once — the only lists the external
tag store produces — this coincides with the claim's reading. -/
theorem isCreatedByCavalier_first_match (dbi : DBInstance) :
    isCreatedByCavalier dbi =
      ((dbi.tagList.find? fun t => toStr t.key == "CREATED_BY_CAVALIER").any
        fun t => goParseBool (toStr t.value)) := by
  show isCreatedByCavalierTags dbi.tagList = _
  induction dbi.tagList with
  | nil => rfl
  | cons t rest ih =>
    by_cases h : toStr t.key = "CREATED_BY_CAVALIER"
    · simp [isCreatedByCavalierTags, h, List.find?_cons, Option.any]
    · simp [isCreatedByCavalierTags, h, List.find?_cons, ih]

/-! ### C7 — the custom waiter retryable -/

/-- An error that `errors.As`-matches `smithy.APIError` is never
`errors.Is`-equal to the `errSkipRetrable` sentinel (which is a bare
`errors.New`). -/
theorem asAPIErrorCode_ne_skip (e : GoErr) (c : String)
    (h : asAPIErrorCode e = some c) : errorsIs e errSkipRetrable = false := by
  induction e <;> simp_all [asAPIErrorCode, errorsIs, errSkipRetrable]

/-- C7: the retryable rule installed by `setCustomRDSRetryable` on each of
the three waits (instance-available, instance-deleted, snapshot-available):
a poll error that is an API error with code `"ExpiredToken"` is decided
non-retryable and the error itself is surfaced immediately; every other poll
error, and a successful poll, defers to the resource kind's default
retryable `origFn`. -/
theorem waiter_expiredToken_aborts (origFn : Option GoErr → Bool × Option GoErr)
    (err : Option GoErr) :
    (∀ e, err = some e → asAPIErrorCode e = some "ExpiredToken" →
        setCustomRDSRetryable origFn err = (false, some e)) ∧
      ((∀ e, err = some e → asAPIErrorCode e ≠ some "ExpiredToken") →
        setCustomRDSRetryable origFn err = origFn err) := by
  constructor
  · rintro e rfl hcode
    have hskip : errorsIs e errSkipRetrable = false :=
      asAPIErrorCode_ne_skip e "ExpiredToken" hcode
    simp [setCustomRDSRetryable, waiterRetryable, hcode, errorsIsOpt, hskip]
  · intro hother
    match herr : err with
    | none =>
      simp [setCustomRDSRetryable, waiterRetryable, errorsIsOpt, errorsIs, errSkipRetrable]
    | some e =>
      match hcode : asAPIErrorCode e with
      | none =>
        simp [setCustomRDSRetryable, waiterRetryable, hcode, errorsIsOpt, errorsIs,
          errSkipRetrable]
      | some c =>
        have hne : c ≠ "ExpiredToken" := by
          intro hc
          exact hother e rfl (by rw [hcode, hc])
        simp [setCustomRDSRetryable, waiterRetryable, hcode, hne, errorsIsOpt, errorsIs,
          errSkipRetrable]

/-- C7 witness: on a concrete `"ExpiredToken"` API error the installed rule
overrides a default that would have said "retry". -/
theorem waiter_expiredToken_aborts_witness :
    setCustomRDSRetryable (fun _ => (true, none)) (some (.apiError "ExpiredToken")) =
      (false, some (.apiError "ExpiredToken")) :=
  (waiter_expiredToken_aborts (fun _ => (true, none))
    (some (.apiError "ExpiredToken"))).1 (.apiError "ExpiredToken") rfl rfl

/-! ### C9 — generated password shape -/

theorem randomInsert_length (s : List Char) (n : Nat) (c : Char) :
    (randomInsert s n c).length = s.length + 1 := by
  have h : n % (s.length + 1) ≤ s.length :=
    Nat.lt_succ_iff.mp (Nat.mod_lt _ (Nat.succ_pos _))
  simp [randomInsert]
  omega

theorem mem_randomInsert (s : List Char) (n : Nat) (c x : Char) :
    x ∈ randomInsert s n c ↔ x ∈ s ∨ x = c := by
  have h := List.take_append_drop (n % (s.length + 1)) s
  constructor
  · intro hx
    simp only [randomInsert, List.mem_append, List.mem_cons] at hx
    rcases hx with h1 | h1 | h1
    · exact Or.inl (h ▸ List.mem_append_left _ h1)
    · exact Or.inr h1
    · exact Or.inl (h ▸ List.mem_append_right _ h1)
  · intro hx
    simp only [randomInsert, List.mem_append, List.mem_cons]
    rcases hx with h1 | h1
    · rw [← h] at h1
      rcases List.mem_append.mp h1 with h2 | h2
      · exact Or.inl h2
      · exact Or.inr (Or.inr h2)
    · exact Or.inr (Or.inl h1)

theorem countIn_randomInsert (s : List Char) (n : Nat) (c : Char) (cs : List Char) :
    countIn (randomInsert s n c) cs =
      countIn s cs + (if cs.contains c then 1 else 0) := by
  unfold countIn randomInsert
  rw [List.countP_append, List.countP_cons]
  conv_rhs => rw [← List.take_append_drop (n % (s.length + 1)) s, List.countP_append]
  by_cases hc : cs.contains c <;> simp [hc] <;> omega

/-- Invariants of one insertion round: a successful round inserts exactly `n`
characters, all drawn from `charset`; counts over any superset of `charset`
grow by exactly `n`, and counts over any set never shrink. -/
theorem insertRandomly_spec (cs : List Char) (ar : Bool) :
    ∀ (oracle : List (Nat × Nat)) (n : Nat) (res out : List Char)
      (o' : List (Nat × Nat)),
      insertRandomly cs ar n oracle res = some (out, o') →
      out.length = res.length + n ∧
        (∀ x, x ∈ out → x ∈ res ∨ x ∈ cs) ∧
        (∀ sel : List Char, (∀ c ∈ cs, sel.contains c = true) →
          countIn out sel = countIn res sel + n) ∧
        (∀ sel : List Char, countIn res sel ≤ countIn out sel) := by
  intro oracle
  induction oracle with
  | nil =>
    intro n res out o' h
    match n with
    | 0 =>
      simp only [insertRandomly, Option.some.injEq, Prod.mk.injEq] at h
      obtain ⟨h1, _⟩ := h
      subst h1
      exact ⟨rfl, fun x hx => Or.inl hx, fun sel _ => rfl, fun sel => le_refl _⟩
    | n + 1 => simp [insertRandomly] at h
  | cons pr tl ih =>
    obtain ⟨ei, ri⟩ := pr
    intro n res out o' h
    match n with
    | 0 =>
      simp only [insertRandomly, Option.some.injEq, Prod.mk.injEq] at h
      obtain ⟨h1, _⟩ := h
      subst h1
      exact ⟨rfl, fun x hx => Or.inl hx, fun sel _ => rfl, fun sel => le_refl _⟩
    | n + 1 =>
      rw [insertRandomly] at h
      cases hch : cs.get? (ei % cs.length) with
      | none => rw [hch] at h; simp at h
      | some ch =>
        rw [hch] at h
        dsimp only at h
        have hmem : ch ∈ cs := List.get?_mem hch
        by_cases hskip : (!ar && res.contains ch) = true
        · rw [if_pos hskip] at h
          exact ih (n + 1) res out o' h
        · rw [if_neg hskip] at h
          obtain ⟨hlen, hmemO, hcount, hmono⟩ := ih n (randomInsert res ri ch) out o' h
          refine ⟨?_, ?_, ?_, ?_⟩
          · rw [hlen, randomInsert_length]; omega
          · intro x hx
            rcases hmemO x hx with hx1 | hx1
            · rcases (mem_randomInsert res ri ch x).mp hx1 with hx2 | hx2
              · exact Or.inl hx2
              · exact Or.inr (hx2 ▸ hmem)
            · exact Or.inr hx1
          · intro sel hsel
            rw [hcount sel hsel, countIn_randomInsert, if_pos (hsel ch hmem)]
            omega
          · intro sel
            calc countIn res sel
                ≤ countIn (randomInsert res ri ch) sel := by
                  rw [countIn_randomInsert]; omega
              _ ≤ countIn out sel := hmono sel

/-- `generateMasterUserPassword` with the concrete arguments `41, 10, 10,
false, false`: the guards pass and the three rounds run with 21 letters,
10 digits and 10 symbols. -/
theorem generateMasterUserPassword_eq (oracle : List (Nat × Nat)) :
    generateMasterUserPassword oracle =
      match insertRandomly (goLowerLetters ++ goUpperLetters) false 21 oracle [] with
      | none => none
      | some (r1, o1) =>
        match insertRandomly goDigits false 10 o1 r1 with
        | none => none
        | some (r2, o2) =>
          match insertRandomly masterUserPasswordSymbols false 10 o2 r2 with
          | none => none
          | some (r3, _) => some r3 := rfl

/-- C9: every successfully generated master password has length exactly 41,
contains at least 10 characters from the digit set and at least 10 from the
declared symbol allow-list, and contains no character outside the lower/upper
ASCII letters, the digits and that allow-list — for every behaviour of the
random source. -/
theorem generateMasterUserPassword_spec (oracle : List (Nat × Nat)) (p : List Char)
    (h : generateMasterUserPassword oracle = some p) :
    p.length = 41 ∧ 10 ≤ countIn p goDigits ∧
      10 ≤ countIn p masterUserPasswordSymbols ∧
      ∀ c ∈ p, c ∈ goLowerLetters ∨ c ∈ goUpperLetters ∨ c ∈ goDigits ∨
        c ∈ masterUserPasswordSymbols := by
  rw [generateMasterUserPassword_eq] at h
  cases h1 : insertRandomly (goLowerLetters ++ goUpperLetters) false 21 oracle [] with
  | none => rw [h1] at h; simp at h
  | some v1 =>
    obtain ⟨r1, o1⟩ := v1
    rw [h1] at h
    dsimp only at h
    cases h2 : insertRandomly goDigits false 10 o1 r1 with
    | none => rw [h2] at h; dsimp only at h; simp at h
    | some v2 =>
      obtain ⟨r2, o2⟩ := v2
      rw [h2] at h
      dsimp only at h
      cases h3 : insertRandomly masterUserPasswordSymbols false 10 o2 r2 with
      | none => rw [h3] at h; dsimp only at h; simp at h
      | some v3 =>
        obtain ⟨r3, o3⟩ := v3
        rw [h3] at h
        dsimp only at h
        simp only [Option.some.injEq] at h
        subst h
        obtain ⟨len1, mem1, _, _⟩ :=
          insertRandomly_spec (goLowerLetters ++ goUpperLetters) false oracle 21 [] r1 o1 h1
        obtain ⟨len2, mem2, cnt2, mono2⟩ :=
          insertRandomly_spec goDigits false o1 10 r1 r2 o2 h2
        obtain ⟨len3, mem3, cnt3, mono3⟩ :=
          insertRandomly_spec masterUserPasswordSymbols false o2 10 r2 r3 o3 h3
        simp only [List.length_nil] at len1
        refine ⟨by omega, ?_, ?_, ?_⟩
        · have hd : countIn r2 goDigits = countIn r1 goDigits + 10 :=
            cnt2 goDigits (by decide)
          have := mono3 goDigits
          omega
        · have hs : countIn r3 masterUserPasswordSymbols =
              countIn r2 masterUserPasswordSymbols + 10 :=
            cnt3 masterUserPasswordSymbols (by decide)
          omega
        · intro c hc
          rcases mem3 c hc with hc1 | hc1
          · rcases mem2 c hc1 with hc2 | hc2
            · rcases mem1 c hc2 with hc3 | hc3
              · simp at hc3
              · rcases List.mem_append.mp hc3 with hc4 | hc4
                · exact Or.inl hc4
                · exact Or.inr (Or.inl hc4)
            · exact Or.inr (Or.inr (Or.inl hc2))
          · exact Or.inr (Or.inr (Or.inr hc1))

/-- C9 witness: a concrete oracle on which generation succeeds, together with
the guaranteed shape of its output. -/
theorem generateMasterUserPassword_spec_witness :
    "-`+_)(*&^%0987654321utsrqponmlkjihgfedcba".toList.length = 41 ∧
      10 ≤ countIn "-`+_)(*&^%0987654321utsrqponmlkjihgfedcba".toList goDigits ∧
      10 ≤ countIn "-`+_)(*&^%0987654321utsrqponmlkjihgfedcba".toList
        masterUserPasswordSymbols :=
  have h := generateMasterUserPassword_spec ((List.range 41).map fun i => (i, 0))
    "-`+_)(*&^%0987654321utsrqponmlkjihgfedcba".toList (by decide)
  ⟨h.1, h.2.1, h.2.2.1⟩

/-! ### Terminate — helper lemmas about the embedded control flow -/

theorem deleteDBInstanceM_calls (dbid : String) (w : TerminateWorld) (c : Call)
    (hc : c ∈ (deleteDBInstanceM dbid w).2) :
    c = Call.deleteDBInstance ⟨dbid, true, true⟩ ∨ c = Call.waitDBInstanceDeleted dbid := by
  unfold deleteDBInstanceM at hc
  dsimp only at hc
  rcases hdel : w.deleteDBInstance with e | u <;> rw [hdel] at hc <;> dsimp only at hc
  · split_ifs at hc
    · simp_all
    · rcases hwait : w.waitDBInstanceDeleted with e2 | u2 <;> rw [hwait] at hc <;> simp_all
    · simp_all
  · rcases hwait : w.waitDBInstanceDeleted with e2 | u2 <;> rw [hwait] at hc <;> simp_all

theorem DescribeDBSnapshotByIdentifier_calls (dbi : String)
    (pages : List (Except GoErr (List DBSnapshot))) (c : Call)
    (hc : c ∈ (DescribeDBSnapshotByIdentifier dbi pages).2) :
    c = Call.describeDBSnapshots (dbSnapshotName dbi) := by
  induction pages with
  | nil => simp [DescribeDBSnapshotByIdentifier] at hc
  | cons pg rest ih =>
    rw [DescribeDBSnapshotByIdentifier.eq_def] at hc
    dsimp only at hc
    cases pg with
    | error e => simp_all
    | ok snaps =>
      dsimp only at hc
      cases hf : snaps.find? (fun s => isSnapshotCreatedByCavalier dbi s) with
      | some s => rw [hf] at hc; simp_all
      | none =>
        rw [hf] at hc
        dsimp only at hc
        rcases List.mem_cons.mp hc with h1 | h1
        · exact h1
        · exact ih h1

theorem DescribeDBSnapshotByIdentifier_mem_call (dbi : String)
    (pages : List (Except GoErr (List DBSnapshot))) (h : pages ≠ []) :
    Call.describeDBSnapshots (dbSnapshotName dbi) ∈
      (DescribeDBSnapshotByIdentifier dbi pages).2 := by
  cases pages with
  | nil => simp at h
  | cons pg rest =>
    rw [DescribeDBSnapshotByIdentifier.eq_def]
    dsimp only
    cases pg with
    | error e => simp
    | ok snaps =>
      dsimp only
      cases hf : snaps.find? (fun s => isSnapshotCreatedByCavalier dbi s) with
      | some s => simp
      | none => exact List.mem_cons_self _ _

theorem DescribeDBSnapshotByIdentifier_ok_linked (dbi : String)
    (pages : List (Except GoErr (List DBSnapshot))) (s : DBSnapshot)
    (h : (DescribeDBSnapshotByIdentifier dbi pages).1 = .ok s) :
    isSnapshotCreatedByCavalier dbi s = true := by
  induction pages with
  | nil => simp [DescribeDBSnapshotByIdentifier] at h
  | cons pg rest ih =>
    rw [DescribeDBSnapshotByIdentifier.eq_def] at h
    dsimp only at h
    cases pg with
    | error e => simp at h
    | ok snaps =>
      dsimp only at h
      cases hf : snaps.find? (fun s => isSnapshotCreatedByCavalier dbi s) with
      | some s2 =>
        rw [hf] at h
        dsimp only at h
        simp only [Except.ok.injEq] at h
        subst h
        simpa using List.find?_some hf
      | none =>
        rw [hf] at h
        dsimp only at h
        exact ih h

theorem deleteSnapshotIfLinked_fst (dbi : String) (dbs : DBSnapshot)
    (w : TerminateWorld) (calls : List Call) (hdel : w.deleteDBSnapshot = .ok ()) :
    (deleteSnapshotIfLinked dbi dbs w calls).1 = .ok () := by
  unfold deleteSnapshotIfLinked
  split_ifs with h
  · rw [hdel]
  · rfl

theorem deleteSnapshotIfLinked_calls (dbi : String) (dbs : DBSnapshot)
    (w : TerminateWorld) (calls : List Call) (c : Call)
    (hc : c ∈ (deleteSnapshotIfLinked dbi dbs w calls).2) :
    c ∈ calls ∨ c = Call.deleteDBSnapshot dbs.dbSnapshotIdentifier := by
  unfold deleteSnapshotIfLinked at hc
  split_ifs at hc with h
  · cases hdel : w.deleteDBSnapshot <;> rw [hdel] at hc <;> simp_all
  · exact Or.inl hc

theorem deleteSnapshotIfLinked_calls_sub (dbi : String) (dbs : DBSnapshot)
    (w : TerminateWorld) (calls : List Call) (c : Call) (hc : c ∈ calls) :
    c ∈ (deleteSnapshotIfLinked dbi dbs w calls).2 := by
  unfold deleteSnapshotIfLinked
  split_ifs with h
  · cases hdel : w.deleteDBSnapshot <;> exact List.mem_append_left _ hc
  · exact hc

theorem deleteSnapshotIfLinked_mem (dbi : String) (dbs : DBSnapshot)
    (w : TerminateWorld) (calls : List Call) :
    (∃ o, Call.deleteDBSnapshot o ∈ (deleteSnapshotIfLinked dbi dbs w calls).2) ↔
      (∃ o, Call.deleteDBSnapshot o ∈ calls) ∨
        isSnapshotCreatedByCavalier dbi dbs = true := by
  unfold deleteSnapshotIfLinked
  split_ifs with h
  · cases hdel : w.deleteDBSnapshot <;> simp [h]
  · simp [h]

theorem terminateCleanup_secret_error (cfg : Config) (w : TerminateWorld) (e : GoErr)
    (hsec : w.deleteSecret = .error e) :
    terminateCleanup cfg w =
      (.error (.wrap "deleting the master user password secret" e),
        [Call.deleteSecret
          ⟨masterUserPasswordSecretName cfg.secretsManagerPfx cfg.dbInstanceIdentifier,
            true⟩]) := by
  unfold terminateCleanup deleteMasterUserPasswordSecret
  rw [hsec]

theorem terminateCleanup_snap (cfg : Config) (w : TerminateWorld)
    (hsec : w.deleteSecret = .ok ()) :
    terminateCleanup cfg w = prependCalls
      [Call.deleteSecret
        ⟨masterUserPasswordSecretName cfg.secretsManagerPfx cfg.dbInstanceIdentifier, true⟩]
      (match DescribeDBSnapshotByIdentifier cfg.dbInstanceIdentifier
          w.describeDBSnapshotPages with
        | (.error e, snapCalls) =>
          if ¬ IsDBSnapshotNotFound e then (.error e, snapCalls)
          else deleteSnapshotIfLinked cfg.dbInstanceIdentifier zeroDBSnapshot w snapCalls
        | (.ok dbs, snapCalls) =>
          deleteSnapshotIfLinked cfg.dbInstanceIdentifier dbs w snapCalls) := by
  unfold terminateCleanup deleteMasterUserPasswordSecret
  rw [hsec]
  dsimp only
  cases hds : DescribeDBSnapshotByIdentifier cfg.dbInstanceIdentifier
      w.describeDBSnapshotPages with
  | mk snapRes snapCalls =>
    cases snapRes with
    | error e =>
      dsimp only
      split_ifs with h
      · rfl
      · rfl
    | ok dbs => rfl

theorem terminateCleanup_secret_call (cfg : Config) (w : TerminateWorld) :
    Call.deleteSecret
        ⟨masterUserPasswordSecretName cfg.secretsManagerPfx cfg.dbInstanceIdentifier, true⟩ ∈
      (terminateCleanup cfg w).2 := by
  cases hsec : w.deleteSecret with
  | error e => rw [terminateCleanup_secret_error cfg w e hsec]; simp
  | ok u =>
    rw [terminateCleanup_snap cfg w (by rw [hsec])]
    unfold prependCalls
    exact List.mem_append_left _ (List.mem_singleton.mpr rfl)

theorem terminateCleanup_calls (cfg : Config) (w : TerminateWorld) (c : Call)
    (hc : c ∈ (terminateCleanup cfg w).2) :
    c = Call.deleteSecret
        ⟨masterUserPasswordSecretName cfg.secretsManagerPfx cfg.dbInstanceIdentifier, true⟩ ∨
      c = Call.describeDBSnapshots (dbSnapshotName cfg.dbInstanceIdentifier) ∨
      ∃ o, c = Call.deleteDBSnapshot o := by
  cases hsec : w.deleteSecret with
  | error e =>
    rw [terminateCleanup_secret_error cfg w e hsec] at hc
    simp at hc
    exact Or.inl hc
  | ok u =>
    rw [terminateCleanup_snap cfg w (by rw [hsec])] at hc
    unfold prependCalls at hc
    rcases List.mem_append.mp hc with h1 | h1
    · exact Or.inl (List.mem_singleton.mp h1)
    · cases hds : DescribeDBSnapshotByIdentifier cfg.dbInstanceIdentifier
          w.describeDBSnapshotPages with
      | mk snapRes snapCalls =>
        rw [hds] at h1
        cases snapRes with
        | error e =>
          dsimp only at h1
          split_ifs at h1
          · rcases deleteSnapshotIfLinked_calls _ _ _ _ _ h1 with h2 | h2
            · exact Or.inr (Or.inl
                (DescribeDBSnapshotByIdentifier_calls _ _ _ (by rw [hds]; exact h2)))
            · exact Or.inr (Or.inr ⟨_, h2⟩)
          · exact Or.inr (Or.inl
              (DescribeDBSnapshotByIdentifier_calls _ _ _ (by rw [hds]; exact h1)))
        | ok dbs =>
          dsimp only at h1
          rcases deleteSnapshotIfLinked_calls _ _ _ _ _ h1 with h2 | h2
          · exact Or.inr (Or.inl
              (DescribeDBSnapshotByIdentifier_calls _ _ _ (by rw [hds]; exact h2)))
          · exact Or.inr (Or.inr ⟨_, h2⟩)

theorem terminateCleanup_describe_mem (cfg : Config) (w : TerminateWorld)
    (hsec : w.deleteSecret = .ok ()) (hpages : w.describeDBSnapshotPages ≠ []) :
    Call.describeDBSnapshots (dbSnapshotName cfg.dbInstanceIdentifier) ∈
      (terminateCleanup cfg w).2 := by
  rw [terminateCleanup_snap cfg w hsec]
  unfold prependCalls
  refine List.mem_append_right _ ?_
  have hmem := DescribeDBSnapshotByIdentifier_mem_call cfg.dbInstanceIdentifier
    w.describeDBSnapshotPages hpages
  cases hds : DescribeDBSnapshotByIdentifier cfg.dbInstanceIdentifier
      w.describeDBSnapshotPages with
  | mk snapRes snapCalls =>
    rw [hds] at hmem
    cases snapRes with
    | error e =>
      dsimp only
      split_ifs
      · exact deleteSnapshotIfLinked_calls_sub _ _ _ _ _ hmem
      · exact hmem
    | ok dbs =>
      dsimp only
      exact deleteSnapshotIfLinked_calls_sub _ _ _ _ _ hmem

/-- Control-flow condition under which `HandleTerminate` reaches its cleanup
tail: either the instance lookup faulted with instance-not-found, or it
returned exactly one cavalier-owned instance and the delete-and-wait phase
succeeded. -/
def ReachesCleanup (cfg : Config) (w : TerminateWorld) : Prop :=
  (∃ e, w.describeDBInstances = .error e ∧ IsDBInstanceNotFound e = true) ∨
    (∃ dbi, w.describeDBInstances = .ok [dbi] ∧ isCreatedByCavalier dbi = true ∧
      (deleteDBInstanceM cfg.dbInstanceIdentifier w).1 = .ok ())

theorem HandleTerminate_notFound_eq (cfg : Config) (w : TerminateWorld) (e : GoErr)
    (he : w.describeDBInstances = .error e) (hnf : IsDBInstanceNotFound e = true) :
    HandleTerminate cfg w = ((terminateCleanup cfg w).1,
      Call.describeDBInstances cfg.dbInstanceIdentifier :: (terminateCleanup cfg w).2) := by
  unfold HandleTerminate isCreatedByCavalierLookup
  rw [he]
  dsimp only
  rw [if_pos (show IsDBInstanceNotFound (.wrap "describing the DB instance" e) = true from hnf)]
  rfl

theorem HandleTerminate_owned_eq (cfg : Config) (w : TerminateWorld) (dbi : DBInstance)
    (hok : w.describeDBInstances = .ok [dbi]) (hown : isCreatedByCavalier dbi = true)
    (hdel : (deleteDBInstanceM cfg.dbInstanceIdentifier w).1 = .ok ()) :
    HandleTerminate cfg w = ((terminateCleanup cfg w).1,
      (Call.describeDBInstances cfg.dbInstanceIdentifier ::
        (deleteDBInstanceM cfg.dbInstanceIdentifier w).2) ++ (terminateCleanup cfg w).2) := by
  unfold HandleTerminate isCreatedByCavalierLookup
  rw [hok]
  dsimp only
  rw [if_pos hown]
  dsimp only
  rw [show deleteDBInstanceM cfg.dbInstanceIdentifier w =
      (Except.ok (), (deleteDBInstanceM cfg.dbInstanceIdentifier w).2) from by rw [← hdel]]
  rfl

theorem HandleTerminate_reach (cfg : Config) (w : TerminateWorld)
    (h : ReachesCleanup cfg w) :
    ∃ pre, HandleTerminate cfg w =
        ((terminateCleanup cfg w).1, pre ++ (terminateCleanup cfg w).2) ∧
      ∀ c ∈ pre, (∀ inp, c ≠ Call.deleteSecret inp) ∧
        (∀ s, c ≠ Call.describeDBSnapshots s) ∧ (∀ o, c ≠ Call.deleteDBSnapshot o) := by
  rcases h with ⟨e, he, hnf⟩ | ⟨dbi, hok, hown, hdel⟩
  · refine ⟨[Call.describeDBInstances cfg.dbInstanceIdentifier], ?_, ?_⟩
    · rw [HandleTerminate_notFound_eq cfg w e he hnf]; rfl
    · intro c hc
      rcases List.mem_singleton.mp hc with rfl
      exact ⟨fun _ => by simp, fun _ => by simp, fun _ => by simp⟩
  · refine ⟨Call.describeDBInstances cfg.dbInstanceIdentifier ::
        (deleteDBInstanceM cfg.dbInstanceIdentifier w).2, ?_, ?_⟩
    · rw [HandleTerminate_owned_eq cfg w dbi hok hown hdel]
    · intro c hc
      rcases List.mem_cons.mp hc with rfl | hc2
      · exact ⟨fun _ => by simp, fun _ => by simp, fun _ => by simp⟩
      · rcases deleteDBInstanceM_calls _ _ _ hc2 with rfl | rfl
        · exact ⟨fun _ => by simp, fun _ => by simp, fun _ => by simp⟩
        · exact ⟨fun _ => by simp, fun _ => by simp, fun _ => by simp⟩

/-! ### Concrete fixtures (mirroring the repository's test configuration) -/

/-- The test configuration: instance identifier `test`, secret-store name
space `secrets-prefix`. -/
def cfgTest : Config where
  sourceDBInstanceIdentifier := "src-db"
  snapshotARN := "arn:snapshot"
  dbInstanceClass := "db.t3.medium"
  dbSubnetGroupName := "subnet"
  dbInstanceIdentifier := "test"
  dbParameterGroupName := ""
  optionGroupName := ""
  secretsManagerPfx := "secrets-prefix"
  vpcSecurityGroupIDs := ["sg-1"]
  takeSnapshot := false

/-- An instance that carries only the ownership tag. -/
def dbiOwned : DBInstance := ⟨some "test", [⟨some "CREATED_BY_CAVALIER", some "true"⟩]⟩

/-- A snapshot whose tags link it to instance `test`. -/
def snapLinked : DBSnapshot :=
  ⟨some "test-cavalier", some "arn:snap",
    [⟨some "CAVALIER_DB_INSTANCE_IDENTIFIER", some "test"⟩]⟩

/-! ### C1 — Terminate on a found-but-unowned instance -/

/-- The lookup returns exactly one instance bearing no tags at all. -/
def wC1 : TerminateWorld where
  describeDBInstances := .ok [⟨some "test", []⟩]
  deleteDBInstance := .ok ()
  waitDBInstanceDeleted := .ok ()
  deleteSecret := .ok ()
  describeDBSnapshotPages := []
  deleteDBSnapshot := .ok ()

/-- C1 (code bug): on a lookup returning exactly one unowned instance,
`HandleTerminate` issues no delete of any kind (its trace is the lone
`DescribeDBInstances` call) — but the error it returns is the fresh
`errors.New` of cavalier.go line 157, NOT the `errDBNotCreatedByCavalier`
sentinel of error.go that the claim (and the repository's own test,
`require.ErrorIs(actual, errDBNotCreatedByCavalier)`) names: `errors.Is`
against that sentinel is false, the messages differing by the `cavalier: `
sentinel and the values being distinct `errors.New` allocations. -/
theorem HandleTerminate_unowned_not_sentinel :
    HandleTerminate cfgTest wC1 =
      (.error (.errorsNew "cavalier.go:157"
          "the specified DB instance wasn't created by the cavalier"),
        [Call.describeDBInstances "test"]) ∧
      errorsIs (.errorsNew "cavalier.go:157"
          "the specified DB instance wasn't created by the cavalier")
        errDBNotCreatedByCavalier = false :=
  ⟨rfl, rfl⟩

/-! ### C5 — Terminate on an instance lookup faulting with not-found -/

/-- C5: when the instance lookup faults with instance-not-found, Terminate
treats the instance as already deleted: the ownership check is skipped and no
`DeleteDBInstance` call is made; the secret delete is still attempted, the
snapshot lookup is still attempted, and when the secret delete succeeds and
the snapshot phase succeeds (a linked snapshot is found and its delete
succeeds, or the lookup faults with snapshot-not-found, which is tolerated)
the overall result is success. -/
theorem HandleTerminate_instanceNotFound_spec (cfg : Config) (w : TerminateWorld)
    (e : GoErr) (he : w.describeDBInstances = .error e)
    (hnf : IsDBInstanceNotFound e = true) (hsec : w.deleteSecret = .ok ())
    (hsnap : ((∃ s, (DescribeDBSnapshotByIdentifier cfg.dbInstanceIdentifier
            w.describeDBSnapshotPages).1 = .ok s) ∧ w.deleteDBSnapshot = .ok ()) ∨
      (∃ e2, (DescribeDBSnapshotByIdentifier cfg.dbInstanceIdentifier
          w.describeDBSnapshotPages).1 = .error e2 ∧ IsDBSnapshotNotFound e2 = true)) :
    (HandleTerminate cfg w).1 = .ok () ∧
      (∀ inp, Call.deleteDBInstance inp ∉ (HandleTerminate cfg w).2) ∧
      Call.deleteSecret ⟨masterUserPasswordSecretName cfg.secretsManagerPfx
        cfg.dbInstanceIdentifier, true⟩ ∈ (HandleTerminate cfg w).2 ∧
      Call.describeDBSnapshots (dbSnapshotName cfg.dbInstanceIdentifier) ∈
        (HandleTerminate cfg w).2 := by
  have heq := HandleTerminate_notFound_eq cfg w e he hnf
  have hok : (terminateCleanup cfg w).1 = .ok () := by
    rw [terminateCleanup_snap cfg w hsec]
    unfold prependCalls
    dsimp only
    cases hds : DescribeDBSnapshotByIdentifier cfg.dbInstanceIdentifier
        w.describeDBSnapshotPages with
    | mk snapRes snapCalls =>
      cases snapRes with
      | error e2 =>
        rcases hsnap with ⟨⟨s, hs⟩, _⟩ | ⟨e3, he3, hnf3⟩
        · rw [hds] at hs; simp at hs
        · rw [hds] at he3
          simp only [Except.error.injEq] at he3
          subst he3
          dsimp only
          rw [if_neg (by simp [hnf3])]
          simp [deleteSnapshotIfLinked, zeroDBSnapshot, isSnapshotCreatedByCavalier]
      | ok dbs =>
        rcases hsnap with ⟨⟨s, hs⟩, hdel⟩ | ⟨e3, he3, hnf3⟩
        · exact deleteSnapshotIfLinked_fst _ _ _ _ hdel
        · rw [hds] at he3; simp at he3
  have hpages : w.describeDBSnapshotPages ≠ [] := by
    intro hnil
    rcases hsnap with ⟨⟨s, hs⟩, _⟩ | ⟨e2, he2, hnf2⟩
    · rw [hnil] at hs; simp [DescribeDBSnapshotByIdentifier] at hs
    · rw [hnil] at he2
      simp only [DescribeDBSnapshotByIdentifier, Except.error.injEq] at he2
      subst he2
      simp [IsDBSnapshotNotFound] at hnf2
  refine ⟨?_, ?_, ?_, ?_⟩
  · rw [heq]; exact hok
  · intro inp hmem
    rw [heq] at hmem
    rcases List.mem_cons.mp hmem with h1 | h1
    · simp at h1
    · rcases terminateCleanup_calls cfg w _ h1 with h2 | h2 | ⟨o, h2⟩ <;> simp at h2
  · rw [heq]
    exact List.mem_cons_of_mem _ (terminateCleanup_secret_call cfg w)
  · rw [heq]
    exact List.mem_cons_of_mem _ (terminateCleanup_describe_mem cfg w hsec hpages)

/-- C5 witness world: lookup faults not-found; the snapshot lookup faults
with snapshot-not-found (tolerated). -/
def wC5 : TerminateWorld where
  describeDBInstances := .error .dbInstanceNotFoundFault
  deleteDBInstance := .ok ()
  waitDBInstanceDeleted := .ok ()
  deleteSecret := .ok ()
  describeDBSnapshotPages := [.error .dbSnapshotNotFoundFault]
  deleteDBSnapshot := .ok ()

/-- C5 witness. -/
theorem HandleTerminate_instanceNotFound_spec_witness :
    (HandleTerminate cfgTest wC5).1 = .ok () ∧
      Call.deleteSecret ⟨"secrets-prefix/test", true⟩ ∈ (HandleTerminate cfgTest wC5).2 ∧
      Call.describeDBSnapshots "test-cavalier" ∈ (HandleTerminate cfgTest wC5).2 := by
  have h := HandleTerminate_instanceNotFound_spec cfgTest wC5 .dbInstanceNotFoundFault rfl
    (by decide) rfl
    (Or.inr ⟨.wrap "describing the DB snapshot" .dbSnapshotNotFoundFault, by decide, by decide⟩)
  exact ⟨h.1, h.2.2.1, h.2.2.2⟩

/-! ### C4 — Terminate's secret deletion -/

/-- C4 (amended): every Terminate that reaches secret cleanup issues exactly
the force-without-recovery delete of `<prefix>/<instance-id>`; but ANY error
the secret store reports on that delete — a not-found report included — is
wrapped and returned as Terminate's error and snapshot cleanup is NOT
reached; only a success report continues to snapshot cleanup. -/
theorem HandleTerminate_secretDelete_amended (cfg : Config) (w : TerminateWorld)
    (hreach : ReachesCleanup cfg w) :
    (∀ inp, Call.deleteSecret inp ∈ (HandleTerminate cfg w).2 →
        inp = ⟨masterUserPasswordSecretName cfg.secretsManagerPfx cfg.dbInstanceIdentifier,
          true⟩) ∧
      Call.deleteSecret ⟨masterUserPasswordSecretName cfg.secretsManagerPfx
          cfg.dbInstanceIdentifier, true⟩ ∈ (HandleTerminate cfg w).2 ∧
      (∀ e, w.deleteSecret = .error e →
        (HandleTerminate cfg w).1 =
            .error (.wrap "deleting the master user password secret" e) ∧
          ∀ s, Call.describeDBSnapshots s ∉ (HandleTerminate cfg w).2) ∧
      (w.deleteSecret = .ok () → w.describeDBSnapshotPages ≠ [] →
        Call.describeDBSnapshots (dbSnapshotName cfg.dbInstanceIdentifier) ∈
          (HandleTerminate cfg w).2) := by
  obtain ⟨pre, heq, hpre⟩ := HandleTerminate_reach cfg w hreach
  refine ⟨?_, ?_, ?_, ?_⟩
  · intro inp hmem
    rw [heq] at hmem
    rcases List.mem_append.mp hmem with h1 | h1
    · exact absurd rfl ((hpre _ h1).1 inp)
    · rcases terminateCleanup_calls cfg w _ h1 with h2 | h2 | ⟨o, h2⟩
      · injection h2
      · simp at h2
      · simp at h2
  · rw [heq]
    exact List.mem_append_right _ (terminateCleanup_secret_call cfg w)
  · intro e hsec
    constructor
    · rw [heq]
      dsimp only
      rw [terminateCleanup_secret_error cfg w e hsec]
    · intro s hmem
      rw [heq] at hmem
      rcases List.mem_append.mp hmem with h1 | h1
      · exact (hpre _ h1).2.1 s rfl
      · rw [terminateCleanup_secret_error cfg w e hsec] at h1
        simp at h1
  · intro hsec hpages
    rw [heq]
    exact List.mem_append_right _ (terminateCleanup_describe_mem cfg w hsec hpages)

/-- C4 counterexample world: lookup faults not-found (so cleanup is
reached); the secret store reports the secret as absent
(`ResourceNotFoundException`). -/
def wC4 : TerminateWorld where
  describeDBInstances := .error .dbInstanceNotFoundFault
  deleteDBInstance := .ok ()
  waitDBInstanceDeleted := .ok ()
  deleteSecret := .error .resourceNotFoundException
  describeDBSnapshotPages := [.error .dbSnapshotNotFoundFault]
  deleteDBSnapshot := .ok ()

/-- C4 counterexample: a not-found report from the secret-store delete is NOT
treated as success — `HandleTerminate` returns the wrapped error and never
proceeds to the snapshot lookup (its whole trace is the lookup and the secret
delete). -/
theorem terminate_secret_notFound_propagates :
    HandleTerminate cfgTest wC4 =
      (.error (.wrap "deleting the master user password secret" .resourceNotFoundException),
        [Call.describeDBInstances "test",
          Call.deleteSecret ⟨"secrets-prefix/test", true⟩]) :=
  rfl

/-- C4 witness. -/
theorem HandleTerminate_secretDelete_amended_witness :
    (HandleTerminate cfgTest wC4).1 =
        .error (.wrap "deleting the master user password secret" .resourceNotFoundException) ∧
      Call.deleteSecret ⟨"secrets-prefix/test", true⟩ ∈ (HandleTerminate cfgTest wC4).2 := by
  have h := HandleTerminate_secretDelete_amended cfgTest wC4
    (Or.inl ⟨.dbInstanceNotFoundFault, rfl, by decide⟩)
  exact ⟨(h.2.2.1 .resourceNotFoundException rfl).1, h.2.1⟩

/-! ### C3 — Terminate's snapshot cleanup -/

/-- C3 counterexample world: an owned instance WITHOUT any
`USE_SNAPSHOT_CREATED_BY_CAVALIER` tag; the snapshot listing returns the
linked snapshot. -/
def wC3 : TerminateWorld where
  describeDBInstances := .ok [dbiOwned]
  deleteDBInstance := .ok ()
  waitDBInstanceDeleted := .ok ()
  deleteSecret := .ok ()
  describeDBSnapshotPages := [.ok [snapLinked]]
  deleteDBSnapshot := .ok ()

/-- C3 counterexample: the claim's "if and only if ... AND the instance's
tags carried USE_SNAPSHOT_CREATED_BY_CAVALIER parsing as true
(isUsingOwnedSnapshot)" fails: here the instance's tags make
`isUsingOwnedSnapshot` false, yet Terminate deletes the linked snapshot and
succeeds — the code never consults any such tag. -/
theorem terminate_snapshot_deleted_without_usage_tag :
    isUsingOwnedSnapshot dbiOwned.tagList = false ∧
      Call.deleteDBSnapshot (some "test-cavalier") ∈ (HandleTerminate cfgTest wC3).2 ∧
      (HandleTerminate cfgTest wC3).1 = .ok () :=
  ⟨by decide, by decide, by decide⟩

/-- C3 (amended): in Terminate's snapshot cleanup (here under a reachable
cleanup with the secret and snapshot deletes succeeding), the
deterministically-named snapshot is deleted if and only if the lookup finds a
snapshot, every snapshot the lookup returns has tags confirming linkage
(a CAVALIER_DB_INSTANCE_IDENTIFIER tag equal to the instance identifier) —
the instance's USE_SNAPSHOT_CREATED_BY_CAVALIER tag is NOT consulted — and a
snapshot-not-found fault during the lookup is tolerated, Terminate still
succeeding. -/
theorem HandleTerminate_snapshotCleanup_amended (cfg : Config) (w : TerminateWorld)
    (hreach : ReachesCleanup cfg w) (hsec : w.deleteSecret = .ok ())
    (hdsnap : w.deleteDBSnapshot = .ok ()) :
    ((∃ o, Call.deleteDBSnapshot o ∈ (HandleTerminate cfg w).2) ↔
      ∃ s, (DescribeDBSnapshotByIdentifier cfg.dbInstanceIdentifier
          w.describeDBSnapshotPages).1 = .ok s) ∧
      (∀ s, (DescribeDBSnapshotByIdentifier cfg.dbInstanceIdentifier
          w.describeDBSnapshotPages).1 = .ok s →
        isSnapshotCreatedByCavalier cfg.dbInstanceIdentifier s = true) ∧
      (∀ e, (DescribeDBSnapshotByIdentifier cfg.dbInstanceIdentifier
          w.describeDBSnapshotPages).1 = .error e → IsDBSnapshotNotFound e = true →
        (HandleTerminate cfg w).1 = .ok ()) := by
  obtain ⟨pre, heq, hpre⟩ := HandleTerminate_reach cfg w hreach
  have hsnapEq := terminateCleanup_snap cfg w hsec
  refine ⟨⟨?_, ?_⟩, ?_, ?_⟩
  · rintro ⟨o, hmem⟩
    rw [heq] at hmem
    rcases List.mem_append.mp hmem with h1 | h1
    · exact absurd rfl ((hpre _ h1).2.2 o)
    · rw [hsnapEq] at h1
      unfold prependCalls at h1
      rcases List.mem_append.mp h1 with h2 | h2
      · simp at h2
      · cases hds : DescribeDBSnapshotByIdentifier cfg.dbInstanceIdentifier
            w.describeDBSnapshotPages with
        | mk snapRes snapCalls =>
          rw [hds] at h2
          cases snapRes with
          | error e2 =>
            dsimp only at h2
            split_ifs at h2
            · have h3 : Call.deleteDBSnapshot o ∈ snapCalls := by
                simpa [deleteSnapshotIfLinked, zeroDBSnapshot, isSnapshotCreatedByCavalier]
                  using h2
              exact absurd (DescribeDBSnapshotByIdentifier_calls _ _ _
                (by rw [hds]; exact h3)) (by simp)
            · exact absurd (DescribeDBSnapshotByIdentifier_calls _ _ _
                (by rw [hds]; exact h2)) (by simp)
          | ok dbs =>
            exact ⟨dbs, rfl⟩
  · rintro ⟨s, hs⟩
    have hlink := DescribeDBSnapshotByIdentifier_ok_linked _ _ _ hs
    rw [heq]
    refine ⟨s.dbSnapshotIdentifier, List.mem_append_right _ ?_⟩
    rw [hsnapEq]
    unfold prependCalls
    refine List.mem_append_right _ ?_
    cases hds : DescribeDBSnapshotByIdentifier cfg.dbInstanceIdentifier
        w.describeDBSnapshotPages with
    | mk snapRes snapCalls =>
      rw [hds] at hs
      cases snapRes with
      | error e2 => simp at hs
      | ok dbs =>
        simp only [Except.ok.injEq] at hs
        subst hs
        dsimp only
        unfold deleteSnapshotIfLinked
        rw [if_pos hlink, hdsnap]
        dsimp only
        exact List.mem_append_right _ (List.mem_singleton.mpr rfl)
  · intro s hs
    exact DescribeDBSnapshotByIdentifier_ok_linked _ _ _ hs
  · intro e2 he2 hnf2
    rw [heq]
    dsimp only
    rw [hsnapEq]
    unfold prependCalls
    dsimp only
    cases hds : DescribeDBSnapshotByIdentifier cfg.dbInstanceIdentifier
        w.describeDBSnapshotPages with
    | mk snapRes snapCalls =>
      rw [hds] at he2
      cases snapRes with
      | error e3 =>
        simp only [Except.error.injEq] at he2
        subst he2
        dsimp only
        rw [if_neg (by simp [hnf2])]
        simp [deleteSnapshotIfLinked, zeroDBSnapshot, isSnapshotCreatedByCavalier]
      | ok dbs => simp at he2

/-- C3 witness: the amended theorem applied at the concrete world — the
snapshot the lookup returns is confirmed linked. -/
theorem HandleTerminate_snapshotCleanup_amended_witness :
    isSnapshotCreatedByCavalier cfgTest.dbInstanceIdentifier snapLinked = true :=
  (HandleTerminate_snapshotCleanup_amended cfgTest wC3
    (Or.inr ⟨dbiOwned, rfl, by decide, by decide⟩) rfl rfl).2.1 snapLinked (by decide)

/-! ### C6 — Modify's create-or-reuse secret protocol -/

theorem modifyApplyPhase_calls (dbID : String) (dbiID : Option String) (mupw : String)
    (w : ModifyWorld) (calls : List Call) :
    Call.modifyDBInstance ⟨dbID, true, some 0, some mupw⟩ ∈
        (modifyApplyPhase dbID dbiID mupw w calls).2 ∧
      (∀ c ∈ calls, c ∈ (modifyApplyPhase dbID dbiID mupw w calls).2) ∧
      ∀ inp, Call.modifyDBInstance inp ∈ (modifyApplyPhase dbID dbiID mupw w calls).2 →
        Call.modifyDBInstance inp ∈ calls ∨ inp = ⟨dbID, true, some 0, some mupw⟩ := by
  unfold modifyApplyPhase
  dsimp only
  cases hm : w.modifyDBInstance with
  | error e =>
    refine ⟨by simp, fun c hc => List.mem_append_left _ hc, ?_⟩
    intro inp hmem
    rcases List.mem_append.mp hmem with h1 | h1
    · exact Or.inl h1
    · simp at h1
      exact Or.inr h1
  | ok u =>
    cases hw : w.waitDBInstanceAvailable2 <;>
      · refine ⟨by simp, fun c hc => List.mem_append_left _ hc, ?_⟩
        intro inp hmem
        rcases List.mem_append.mp hmem with h1 | h1
        · exact Or.inl h1
        · simp at h1
          exact Or.inr h1

/-- C6: once Modify's secret creation fails, if the failure is a
resource-exists fault then `GetSecretValue` is called on the same name
`<prefix>/<instance-id>` and the stored value it returns — not the freshly
generated password — is the master password carried by the
`ModifyDBInstance` call; any creation failure other than resource-exists
aborts Modify with the (twice-wrapped) error and no `ModifyDBInstance` call
is made. -/
theorem HandleModify_secret_reuse (cfg : Config) (w : ModifyWorld) (dbi : DBInstance)
    (dbID pw : String) (ce : GoErr)
    (hD : w.describeDBInstances = .ok [dbi]) (hOwn : isCreatedByCavalier dbi = true)
    (hId : dbi.dbInstanceIdentifier = some dbID)
    (hW : w.waitDBInstanceAvailable1 = .ok ())
    (hGen : w.generateMasterUserPassword = .ok pw)
    (hCe : w.createSecret = .error ce) :
    (IsResourceExists ce = true →
      Call.getSecretValue (masterUserPasswordSecretName cfg.secretsManagerPfx dbID) ∈
          (HandleModify cfg w).2 ∧
        ∀ spw, w.getSecretValue = .ok spw →
          Call.modifyDBInstance ⟨dbID, true, some 0, some spw⟩ ∈ (HandleModify cfg w).2 ∧
            ∀ inp, Call.modifyDBInstance inp ∈ (HandleModify cfg w).2 →
              inp.masterUserPassword = some spw) ∧
      (IsResourceExists ce = false →
        (HandleModify cfg w).1 =
            .error (.wrap "creating the master user password"
              (.wrap "creating a new master user password" ce)) ∧
          ∀ inp, Call.modifyDBInstance inp ∉ (HandleModify cfg w).2) := by
  unfold HandleModify isCreatedByCavalierLookup
  rw [hD]
  dsimp only
  rw [if_pos hOwn]
  dsimp only
  rw [hId]
  dsimp only
  rw [hW]
  dsimp only
  rw [hGen]
  dsimp only
  rw [hCe]
  dsimp only
  constructor
  · intro hre
    rw [if_neg (by simp [IsResourceExists, hre])]
    cases hget : w.getSecretValue with
    | error e2 =>
      refine ⟨by simp, ?_⟩
      intro spw hspw
      simp at hspw
    | ok spw0 =>
      dsimp only
      obtain ⟨hmemM, hsub, hshape⟩ := modifyApplyPhase_calls dbID (some dbID)
        spw0 w [Call.describeDBInstances cfg.dbInstanceIdentifier,
          Call.waitDBInstanceAvailable (some dbID),
          Call.createSecret ⟨masterUserPasswordSecretName cfg.secretsManagerPfx dbID, pw⟩,
          Call.getSecretValue (masterUserPasswordSecretName cfg.secretsManagerPfx dbID)]
      refine ⟨hsub (Call.getSecretValue
        (masterUserPasswordSecretName cfg.secretsManagerPfx dbID)) (by simp), ?_⟩
      intro spw hspw
      simp only [Except.ok.injEq] at hspw
      subst hspw
      refine ⟨hmemM, ?_⟩
      intro inp hmem
      rcases hshape inp hmem with h1 | h1
      · simp at h1
      · rw [h1]
  · intro hre
    rw [if_pos (by simp [IsResourceExists, hre])]
    refine ⟨rfl, ?_⟩
    intro inp hmem
    simp at hmem

/-- C6 witness world: the secret already exists; the store holds
`stored-password` while the generator produced `fresh-password`. -/
def wC6 : ModifyWorld where
  describeDBInstances := .ok [dbiOwned]
  waitDBInstanceAvailable1 := .ok ()
  generateMasterUserPassword := .ok "fresh-password"
  createSecret := .error .resourceExistsException
  getSecretValue := .ok "stored-password"
  modifyDBInstance := .ok ()
  waitDBInstanceAvailable2 := .ok ()

/-- C6 witness. -/
theorem HandleModify_secret_reuse_witness :
    Call.getSecretValue "secrets-prefix/test" ∈ (HandleModify cfgTest wC6).2 ∧
      Call.modifyDBInstance ⟨"test", true, some 0, some "stored-password"⟩ ∈
        (HandleModify cfgTest wC6).2 := by
  have h := HandleModify_secret_reuse cfgTest wC6 dbiOwned "test" "fresh-password"
    .resourceExistsException rfl (by decide) rfl rfl rfl rfl
  have h1 := h.1 (by decide)
  exact ⟨h1.1, (h1.2 "stored-password" rfl).1⟩

/-! ### C2 / C10 — shape of every restore request -/

theorem HandleSnapshot_calls (cfg : Config) (sw : SnapshotWorld) (c : Call)
    (hc : c ∈ (HandleSnapshot cfg sw).2) :
    (∃ i, c = Call.createDBSnapshot i) ∨ ∃ s, c = Call.waitDBSnapshotAvailable s := by
  unfold HandleSnapshot at hc
  dsimp only at hc
  cases hcr : sw.createDBSnapshot with
  | error e =>
    rw [hcr] at hc
    simp at hc
    exact Or.inl ⟨_, hc⟩
  | ok u =>
    rw [hcr] at hc
    dsimp only at hc
    cases hw : sw.waitDBSnapshotAvailable <;> rw [hw] at hc <;> simp at hc <;>
      rcases hc with rfl | rfl
    · exact Or.inl ⟨_, rfl⟩
    · exact Or.inr ⟨_, rfl⟩
    · exact Or.inl ⟨_, rfl⟩
    · exact Or.inr ⟨_, rfl⟩

theorem HandleModify_no_restore (cfg : Config) (w : ModifyWorld)
    (inp : RestoreDBInstanceFromDBSnapshotInput) :
    Call.restoreFromSnapshot inp ∉ (HandleModify cfg w).2 := by
  intro hc
  unfold HandleModify isCreatedByCavalierLookup modifyApplyPhase at hc
  repeat' split at hc
  all_goals try (rw [apply_ite Prod.snd] at hc; split at hc)
  all_goals simp_all

theorem restorePhase_shape (cfg : Config) (arn : String) (w : RestoreWorld)
    (calls : List Call) (inp : RestoreDBInstanceFromDBSnapshotInput)
    (h : Call.restoreFromSnapshot inp ∈ (restorePhase cfg arn w calls).2) :
    Call.restoreFromSnapshot inp ∈ calls ∨ inp = restoreDBInstanceInput cfg arn := by
  unfold restorePhase at h
  dsimp only at h
  cases hr : w.restoreDBInstanceFromDBSnapshot with
  | error e =>
    rw [hr] at h
    dsimp only at h
    rcases List.mem_append.mp h with h1 | h1
    · exact Or.inl h1
    · simp at h1
      exact Or.inr h1
  | ok dbInst =>
    rw [hr] at h
    dsimp only at h
    cases hw : w.waitDBInstanceAvailable with
    | error e2 =>
      rw [hw] at h
      dsimp only at h
      rcases List.mem_append.mp h with h1 | h1
      · exact Or.inl h1
      · simp at h1
        exact Or.inr h1
    | ok u =>
      rw [hw] at h
      dsimp only at h
      rcases List.mem_append.mp h with h1 | h1
      · rcases List.mem_append.mp h1 with h2 | h2
        · exact Or.inl h2
        · simp at h2
          exact Or.inr h2
      · exact absurd h1 (HandleModify_no_restore cfg w.modify inp)

theorem HandleRestore_restore_shape (cfg : Config) (w : RestoreWorld)
    (inp : RestoreDBInstanceFromDBSnapshotInput)
    (h : Call.restoreFromSnapshot inp ∈ (HandleRestore cfg w).2) :
    ∃ arn, inp = restoreDBInstanceInput cfg arn := by
  unfold HandleRestore at h
  by_cases ht : cfg.takeSnapshot
  · rw [if_pos ht] at h
    cases hs : HandleSnapshot cfg w.snapshot with
    | mk r1 c1 =>
      rw [hs] at h
      cases r1 with
      | error e =>
        dsimp only at h
        rcases HandleSnapshot_calls cfg w.snapshot _ (by rw [hs]; exact h) with
          ⟨i, hi⟩ | ⟨s, hi⟩ <;> simp at hi
      | ok u =>
        dsimp only at h
        cases hd : DescribeDBSnapshotByIdentifier cfg.dbInstanceIdentifier
            w.describeDBSnapshotPages with
        | mk r2 c2 =>
          rw [hd] at h
          cases r2 with
          | error e2 =>
            dsimp only at h
            rcases List.mem_append.mp h with h1 | h1
            · rcases HandleSnapshot_calls cfg w.snapshot _ (by rw [hs]; exact h1) with
                ⟨i, hi⟩ | ⟨s, hi⟩ <;> simp at hi
            · exact absurd (DescribeDBSnapshotByIdentifier_calls _ _ _
                (by rw [hd]; exact h1)) (by simp)
          | ok dbs =>
            dsimp only at h
            rcases restorePhase_shape cfg _ w _ inp h with h1 | h1
            · rcases List.mem_append.mp h1 with h2 | h2
              · rcases HandleSnapshot_calls cfg w.snapshot _ (by rw [hs]; exact h2) with
                  ⟨i, hi⟩ | ⟨s, hi⟩ <;> simp at hi
              · exact absurd (DescribeDBSnapshotByIdentifier_calls _ _ _
                  (by rw [hd]; exact h2)) (by simp)
            · exact ⟨_, h1⟩
  · rw [if_neg ht] at h
    rcases restorePhase_shape cfg cfg.snapshotARN w [] inp h with h1 | h1
    · simp at h1
    · exact ⟨_, h1⟩

/-- C2: every `RestoreDBInstanceFromDBSnapshot` request `HandleRestore`
issues carries the ownership tag `CREATED_BY_CAVALIER="true"`, and carries
the usage-link tag `USE_SNAPSHOT_CREATED_BY_CAVALIER="true"` if and only if
the configuration's `takeSnapshot` flag is set — a managed instance is never
requested without the ownership tag. -/
theorem HandleRestore_tags (cfg : Config) (w : RestoreWorld)
    (inp : RestoreDBInstanceFromDBSnapshotInput)
    (h : Call.restoreFromSnapshot inp ∈ (HandleRestore cfg w).2) :
    (⟨some "CREATED_BY_CAVALIER", some "true"⟩ : Tag) ∈ inp.tags ∧
      ((⟨some "USE_SNAPSHOT_CREATED_BY_CAVALIER", some "true"⟩ : Tag) ∈ inp.tags ↔
        cfg.takeSnapshot = true) := by
  obtain ⟨arn, rfl⟩ := HandleRestore_restore_shape cfg w inp h
  constructor
  · show _ ∈ restoreTags cfg
    unfold restoreTags
    by_cases ht : cfg.takeSnapshot <;> simp [ht]
  · show _ ∈ restoreTags cfg ↔ _
    unfold restoreTags
    by_cases ht : cfg.takeSnapshot <;> simp [ht]

/-- C2 witness world: everything succeeds (the modify tail runs against the
C6 world); `takeSnapshot` is false, so the restore uses the configured
snapshot ARN. -/
def wRestore : RestoreWorld where
  snapshot := ⟨.ok (), .ok ()⟩
  describeDBSnapshotPages := [.ok [snapLinked]]
  restoreDBInstanceFromDBSnapshot := .ok ⟨some "test", []⟩
  waitDBInstanceAvailable := .ok ()
  modify := wC6

/-- C2 witness. -/
theorem HandleRestore_tags_witness :
    (⟨some "CREATED_BY_CAVALIER", some "true"⟩ : Tag) ∈
      (restoreDBInstanceInput cfgTest "arn:snapshot").tags :=
  (HandleRestore_tags cfgTest wRestore (restoreDBInstanceInput cfgTest "arn:snapshot")
    (by decide)).1

/-- C10: every `RestoreDBInstanceFromDBSnapshot` request `HandleRestore`
issues hard-codes `PubliclyAccessible=false`, `MultiAZ=false`,
`AutoMinorVersionUpgrade=false` and `EnableIAMDatabaseAuthentication=true`,
and sends the parameter-group and option-group names as nil (omitted) when
the configured strings are empty, and as the configured strings otherwise. -/
theorem HandleRestore_hardcoded (cfg : Config) (w : RestoreWorld)
    (inp : RestoreDBInstanceFromDBSnapshotInput)
    (h : Call.restoreFromSnapshot inp ∈ (HandleRestore cfg w).2) :
    inp.publiclyAccessible = false ∧ inp.multiAZ = false ∧
      inp.autoMinorVersionUpgrade = false ∧
      inp.enableIAMDatabaseAuthentication = true ∧
      inp.dbParameterGroupName =
        (if cfg.dbParameterGroupName = "" then none else some cfg.dbParameterGroupName) ∧
      inp.optionGroupName =
        (if cfg.optionGroupName = "" then none else some cfg.optionGroupName) := by
  obtain ⟨arn, rfl⟩ := HandleRestore_restore_shape cfg w inp h
  exact ⟨rfl, rfl, rfl, rfl, rfl, rfl⟩

/-- C10 witness. -/
theorem HandleRestore_hardcoded_witness :
    (restoreDBInstanceInput cfgTest "arn:snapshot").publiclyAccessible = false ∧
      (restoreDBInstanceInput cfgTest "arn:snapshot").dbParameterGroupName = none := by
  have h := HandleRestore_hardcoded cfgTest wRestore
    (restoreDBInstanceInput cfgTest "arn:snapshot") (by decide)
  exact ⟨h.1, (h.2.2.2.2.1).trans (by decide)⟩

end Cavalier
